import Mathlib

/-!
Verification of the api-manager HTTP client core.

The development shallowly embeds the TypeScript sources:
`api.response.ts` (the `ApiResponse` / `ApiSearchResponse` envelope classes,
the `ApiInterceptor` request pipeline and the `Api` service) and
`api.error.ts` (the `ApiError` class).  JavaScript values appearing in
request/response bodies are modelled by `JsValue`; JavaScript truthiness,
the `||` / `??` operators and property access are modelled explicitly so
that the well-known JS pitfalls (`0 || 500 = 500`, destructuring defaults
applying only to `undefined`, …) are preserved faithfully.
-/

/-- JS-like value for request/response bodies: JSON values plus `undefined`. -/
inductive JsValue where
  | nullV
  | undefV
  | boolV (b : Bool)
  | numV (n : Int)
  | strV (s : String)
  | arrV (elems : List JsValue)
  | objV (fields : List (String × JsValue))

/-- JS truthiness: `null`, `undefined`, `false`, `0` and the empty string are falsy. -/
def JsValue.truthy : JsValue → Bool
  | .nullV => false
  | .undefV => false
  | .boolV b => b
  | .numV n => n != 0
  | .strV s => s != ""
  | .arrV _ => true
  | .objV _ => true

/-- Property read `v.k`: object field lookup, `undefined` for a missing field or
a non-object receiver.  Call sites guard nullish receivers where the source
would throw a `TypeError`. -/
def JsValue.getProp : JsValue → String → JsValue
  | .objV fields, k =>
    match fields.lookup k with
    | some v => v
    | none => .undefV
  | _, _ => .undefV

/-- Receivers on which a property read throws in JS. -/
def JsValue.isNullish : JsValue → Bool
  | .nullV => true
  | .undefV => true
  | _ => false

def JsValue.isUndefV : JsValue → Bool
  | .undefV => true
  | _ => false

/-- JS nullish coalescing `a ?? b`. -/
def jsCoalesce (a b : JsValue) : JsValue := if a.isNullish then b else a

/-- JS `x || d` on a numeric option field: both `undefined` and `0` are falsy,
so an explicit `0` is replaced by the default as well. -/
def jsOrNat (x : Option Nat) (d : Nat) : Nat :=
  match x with
  | some n => if n = 0 then d else n
  | none => d

/-- JS `x || d` on a string option field: `undefined` and `""` are falsy. -/
def jsOrStr (x : Option String) (d : String) : String :=
  match x with
  | some s => if s = "" then d else s
  | none => d

/-- Extracts a string value when it is truthy, as the `a.b || c` chains in the
source do for message/code fields of error bodies. -/
def jsTruthyStr (v : JsValue) : Option String :=
  match v with
  | .strV s => if s = "" then none else some s
  | _ => none

def jsonEscapeChar (c : Char) : String :=
  if c = '\\' then "\\\\"
  else if c = '"' then "\\\""
  else String.singleton c

def jsonQuote (s : String) : String :=
  "\"" ++ String.join (s.data.map jsonEscapeChar) ++ "\""

mutual

/-- `JSON.stringify`, as used on the `filter` and `sort` search parameters.
`undefined` serializes as `null` inside arrays and is dropped from objects. -/
def jsonStringify : JsValue → String
  | .nullV => "null"
  | .undefV => "null"
  | .boolV true => "true"
  | .boolV false => "false"
  | .numV n => toString n
  | .strV s => jsonQuote s
  | .arrV xs => "[" ++ String.intercalate "," (jsonArrItems xs) ++ "]"
  | .objV fs => "\x7b" ++ String.intercalate "," (jsonObjItems fs) ++ "\x7d"

def jsonArrItems : List JsValue → List String
  | [] => []
  | v :: rest => jsonStringify v :: jsonArrItems rest

def jsonObjItems : List (String × JsValue) → List String
  | [] => []
  | (k, v) :: rest =>
    if v.isUndefV then jsonObjItems rest
    else (jsonQuote k ++ ":" ++ jsonStringify v) :: jsonObjItems rest

end

/-- The `error` field of an Angular `HttpErrorResponse`: either a client-side
`ErrorEvent` (network-level failure) or the server-provided body. -/
inductive HttpErrPayload where
  | errorEvent (message : String)
  | body (v : JsValue)

/-- Angular `HttpErrorResponse` as consumed by `ApiError.fromHttpError` and
the interceptor's retry logic (only the consumed fields are modelled). -/
structure HttpErrorResponse where
  status : Nat
  message : String
  url : Option String
  error : HttpErrPayload
  retryAfterHeader : Option String := none

/-- The `details` field carried by an `ApiError`. -/
inductive ErrDetails where
  | noDetails
  | payload (p : HttpErrPayload)
  | raw (tag : String)

/-- The `ApiError` class of `api.error.ts` (immutable value). -/
structure ApiError where
  name : String
  message : String
  timestamp : String
  status : Nat
  path : String
  code : Option String
  details : ErrDetails

/-- Translation of the `ApiError` constructor.  Note the source uses
`this.status = options.status || 500` (JS `||`, not `??`), so an explicit
`status: 0` is coerced to `500`; similarly `this.path = options.path || ''`.
`new Date().toISOString()` is modelled by the ambient clock string `now`. -/
def ApiError.make (now message : String) (status : Option Nat) (code : Option String)
    (path : Option String) (details : ErrDetails) : ApiError :=
  { name := "ApiError"
  , message := message
  , timestamp := now
  , status := jsOrNat status 500
  , path := jsOrStr path ""
  , code := code
  , details := details }

/-- Translation of `ApiError.fromHttpError`: a client-side `ErrorEvent`
becomes `status: 0, code: 'CLIENT_ERROR'` (before the constructor's `|| 500`
coercion); a server-side error keeps the response status, takes
`code` from the body (`error?.code || 'HTTP_<status>'`) and the message from
`error?.message || httpErrorResponse.message || 'Unknown error occurred'`. -/
def ApiError.fromHttpError (now : String) (r : HttpErrorResponse) : ApiError :=
  match r.error with
  | .errorEvent msg =>
    ApiError.make now msg (some 0) (some "CLIENT_ERROR") none (.payload r.error)
  | .body v =>
    let msg :=
      match jsTruthyStr (v.getProp "message") with
      | some s => s
      | none => if r.message = "" then "Unknown error occurred" else r.message
    let code :=
      match jsTruthyStr (v.getProp "code") with
      | some s => s
      | none => "HTTP_" ++ toString r.status
    ApiError.make now msg (some r.status) (some code) (some (r.url.getD "")) (.payload r.error)

namespace ApiInterceptor

def DEFAULT_TIMEOUT : Nat := 30000
def DEFAULT_RETRIES : Nat := 2
def MAX_RETRY_DELAY : Nat := 10000

/-- An error travelling through the interceptor's rxjs pipe: an
`HttpErrorResponse` from the transport, an `ApiError` thrown from the retry
delay callback, an rxjs `TimeoutError`, or anything else. -/
inductive RawError where
  | http (r : HttpErrorResponse)
  | api (e : ApiError)
  | timeoutErr
  | other (tag : String)

/-- Result of the retry `delay` callback: `throwError(() => apiError)`
(which aborts retrying and surfaces the error) or `timer(ms)`. -/
inductive RetryDecision where
  | throwErr (e : ApiError)
  | wait (ms : Nat)

/-- JS `parseInt` on a `Retry-After` header value (leading decimal digits;
`none` models `NaN`, for which `timer(NaN)` fires immediately). -/
def jsParseInt (s : String) : Option Nat :=
  let ds := s.data.takeWhile Char.isDigit
  if ds = [] then none
  else some (ds.foldl (fun acc c => acc * 10 + (c.toNat - 48)) 0)

/-- Translation of the retry `delay` callback in `ApiInterceptor.intercept`
(api.response.ts lines 175-201).  `retryCount` is the value supplied by the
rxjs `retry` operator, which counts retries starting at 1.  Note the source
checks `apiError.status >= 400 && apiError.status < 500` before its
rate-limiting branch, so the `Retry-After` branch is only reachable for a
status-429 error that the first check did not already capture. -/
def retryDelay (now : String) (error : RawError) (retryCount : Nat) : RetryDecision :=
  match error with
  | .http r =>
    let apiError := ApiError.fromHttpError now r
    if 400 ≤ apiError.status ∧ apiError.status < 500 then
      .throwErr apiError
    else if apiError.status = 429 then
      match r.retryAfterHeader with
      | some ra =>
        if ra ≠ "" then
          match jsParseInt ra with
          | some n => .wait (min (n * 1000) MAX_RETRY_DELAY)
          | none => .wait 0
        else .wait (min (1000 * 2 ^ retryCount) MAX_RETRY_DELAY)
      | none => .wait (min (1000 * 2 ^ retryCount) MAX_RETRY_DELAY)
    else .wait (min (1000 * 2 ^ retryCount) MAX_RETRY_DELAY)
  | _ => .wait (min (1000 * 2 ^ retryCount) MAX_RETRY_DELAY)

/-- Outcome of one subscription to the transport: an `HttpResponse` body or
an error. -/
inductive AttemptOutcome where
  | success (body : JsValue)
  | failure (err : RawError)

/-- Result of the rxjs `retry` stage: the final body or error, the list of
backoff delays that were scheduled, and the number of transport attempts
actually made. -/
inductive RetryOutcome where
  | ok (body : JsValue) (delays : List Nat) (tries : Nat)
  | err (e : RawError) (delays : List Nat) (tries : Nat)

def RetryOutcome.delays : RetryOutcome → List Nat
  | .ok _ ds _ => ds
  | .err _ ds _ => ds

def RetryOutcome.tries : RetryOutcome → Nat
  | .ok _ _ t => t
  | .err _ _ t => t

/-- The rxjs `retry(config)` loop: on the error of attempt `k` (0-based), if
`k < count` the delay callback is consulted with `retryCount = k + 1`
(rxjs increments its counter before invoking the callback); a `timer`
result schedules a resubscription, a `throwError` result ends the stream
with that error; once `count` failures have been retried the error
propagates as-is.  `fuel` is `count - k` and bounds the recursion. -/
def runRetryFrom (now : String) (count : Nat) (attempts : Nat → AttemptOutcome) :
    Nat → Nat → List Nat → RetryOutcome
  | fuel, k, acc =>
    match attempts k with
    | .success b => .ok b acc.reverse (k + 1)
    | .failure e =>
      if k < count then
        match fuel with
        | 0 => .err e acc.reverse (k + 1)
        | fuel' + 1 =>
          match retryDelay now e (k + 1) with
          | .throwErr ae => .err (.api ae) acc.reverse (k + 1)
          | .wait d => runRetryFrom now count attempts fuel' (k + 1) (d :: acc)
      else .err e acc.reverse (k + 1)

/-- The retry stage of `ApiInterceptor.intercept` applied to a stream of
transport attempt outcomes. -/
def runRetry (now : String) (count : Nat) (attempts : Nat → AttemptOutcome) : RetryOutcome :=
  runRetryFrom now count attempts count 0 []

/-- Translation of the `ApiResponse` constructor applied to a raw JS body, as
`handleResponse` does with `new ApiResponse(event.body)`.  The body is used
as the constructor's `options` argument, so `data`/`statusCode`/`message` are
read off the raw body; reading a property of a nullish body throws
(modelled by `none`). -/
def newApiResponse (now : String) (options : JsValue) : Option JsValue :=
  if options.isNullish then none
  else some (.objV
    [ ("data", options.getProp "data")
    , ("metadata", .objV
        [ ("timestamp", .strV now)
        , ("statusCode", options.getProp "statusCode")
        , ("message", jsCoalesce (options.getProp "message") (.strV "")) ]) ])

/-- Translation of `ApiInterceptor.handleResponse` at the body level: a body
that already carries (truthy) `metadata` is passed through unchanged,
otherwise it is wrapped via the `ApiResponse` constructor. -/
def handleResponse (now : String) (body : JsValue) : Option JsValue :=
  if body.truthy && (body.getProp "metadata").truthy then some body
  else newApiResponse now body

/-- `handleUnauthorized`: `localStorage.removeItem('authToken')`.  Removing
an absent key is a no-op, so the result is `none` in every case. -/
def handleUnauthorized (_st : Option String) : Option String := none

/-- Translation of `ApiInterceptor.handleApiError`.  Returns the error that
is re-thrown to the caller, the credential store after side effects, and the
number of credential-clear invocations performed.  The `status = 0` branch
rebuilds the error with a connectivity message (note: through the
constructor, so its `|| 500` coercion applies there too). -/
def handleApiError (now : String) (e : ApiError) (st : Option String) :
    ApiError × Option String × Nat :=
  if e.status = 401 then (e, handleUnauthorized st, 1)
  else if e.status = 403 then (e, st, 0)
  else if e.status = 0 then
    (ApiError.make now "Network error occurred. Please check your connection."
      (some 0) (some "NETWORK_ERROR") none e.details, st, 0)
  else (e, st, 0)

/-- Normalized outcome of the interceptor pipeline. -/
inductive InterceptResult where
  | ok (body : JsValue)
  | err (e : ApiError)

structure InterceptOutput where
  result : InterceptResult
  store : Option String
  clears : Nat
  delays : List Nat
  tries : Nat

/-- Translation of the `ApiInterceptor.intercept` pipe
(`timeout` → `retry` → `map handleResponse` → `catchError`): the retry loop
runs over the transport attempts; a successful body is normalized by
`handleResponse` (a `TypeError` thrown there falls into `catchError` as an
unexpected error); an error is converted to `ApiError` if needed and passes
through `handleApiError` before being surfaced. -/
def intercept (now : String) (retries : Nat) (attempts : Nat → AttemptOutcome)
    (st : Option String) : InterceptOutput :=
  match runRetry now retries attempts with
  | .ok b ds t =>
    match handleResponse now b with
    | some b2 => ⟨.ok b2, st, 0, ds, t⟩
    | none =>
      let e := ApiError.make now "An unexpected error occurred" (some 500)
        (some "UNEXPECTED_ERROR") none (.raw "TypeError")
      let h := handleApiError now e st
      ⟨.err h.1, h.2.1, h.2.2, ds, t⟩
  | .err raw ds t =>
    let ae :=
      match raw with
      | .api a => a
      | .http r => ApiError.fromHttpError now r
      | .timeoutErr => ApiError.make now "An unexpected error occurred" (some 500)
          (some "UNEXPECTED_ERROR") none (.raw "TimeoutError")
      | .other tag => ApiError.make now "An unexpected error occurred" (some 500)
          (some "UNEXPECTED_ERROR") none (.raw tag)
    let h := handleApiError now ae st
    ⟨.err h.1, h.2.1, h.2.2, ds, t⟩

end ApiInterceptor

/-- `EndpointConfig` of api-config.types.ts. -/
structure EndpointConfig where
  path : String
  timeout : Option Nat := none
  retries : Option Nat := none

/-- `ApiConfig` of api-config.types.ts; the endpoint map is an association
list keyed by endpoint name. -/
structure ApiConfig where
  baseUrl : String
  endpoints : List (String × EndpointConfig)
  defaultTimeout : Option Nat := none
  defaultRetries : Option Nat := none

/-- `SortParams` of api.ts. -/
structure SortParams where
  field : String
  direction : String

/-- `ApiSearchParameters` of api.ts; every field is optional. -/
structure ApiSearchParameters where
  page : Option Nat := none
  limit : Option Nat := none
  search : Option String := none
  filter : Option (List (String × JsValue)) := none
  sort : Option (List SortParams) := none
  groupby : Option String := none

def sortToJsValue (s : List SortParams) : JsValue :=
  .arrV (s.map fun p => .objV [("field", .strV p.field), ("direction", .strV p.direction)])

namespace Api

/-- `this.defaultTimeout = config.defaultTimeout || 5000` (second revision of
the `Api` service). -/
def defaultTimeoutOf (cfg : ApiConfig) : Nat := jsOrNat cfg.defaultTimeout 5000

/-- `this.defaultRetries = config.defaultRetries || 0` (second revision of
the `Api` service). -/
def defaultRetriesOf (cfg : ApiConfig) : Nat := jsOrNat cfg.defaultRetries 0

/-- `Api.getUrl`. -/
def getUrl (cfg : ApiConfig) (path : String) : String := cfg.baseUrl ++ "/" ++ path

/-- `Api.getEndpointConfig`: looks the endpoint name up in the configured
map and throws synchronously when it is absent. -/
def getEndpointConfig (cfg : ApiConfig) (endpoint : String) : Except String EndpointConfig :=
  match cfg.endpoints.lookup endpoint with
  | some c => .ok c
  | none => .error ("Endpoint \"" ++ endpoint ++ "\" not found in API configuration")

/-- Angular `HttpParams.set`: replaces the value of an existing key in place,
otherwise appends the new entry. -/
def hpSet (ps : List (String × String)) (k v : String) : List (String × String) :=
  if ps.any (fun p => p.1 = k) then ps.map (fun p => if p.1 = k then (k, v) else p)
  else ps ++ [(k, v)]

/-- Translation of `Api.buildHttpParams` (api.response.ts lines 829-844).
Note the early `if (!parameters) return params`: an absent parameters object
yields an *empty* query, the page/limit defaults are only applied when a
parameters object is present.  `if (search)` / `if (groupby)` are JS
truthiness tests, so present-but-empty strings are omitted;
`if (sort?.length)` omits a present-but-empty sort array. -/
def buildHttpParams (parameters : Option ApiSearchParameters) : List (String × String) :=
  match parameters with
  | none => []
  | some p =>
    let page := p.page.getD 1
    let limit := p.limit.getD 100
    let ps : List (String × String) := []
    let ps := match p.search with
      | some s => if s ≠ "" then hpSet ps "search" s else ps
      | none => ps
    let ps := match p.filter with
      | some f => hpSet ps "filter" (jsonStringify (.objV f))
      | none => ps
    let ps := match p.sort with
      | some s => if s.length ≠ 0 then hpSet ps "sort" (jsonStringify (sortToJsValue s)) else ps
      | none => ps
    let ps := match p.groupby with
      | some g => if g ≠ "" then hpSet ps "groupby" g else ps
      | none => ps
    hpSet (hpSet ps "page" (toString page)) "limit" (toString limit)

/-- The outbound HTTP request an `Api` operation issues once the endpoint
has been resolved. -/
structure HttpCall where
  method : String
  url : String
  params : List (String × String)

/-- `Api.search` up to the point where the network call is issued: endpoint
resolution happens synchronously first, so an unknown endpoint throws before
any request is built. -/
def search (cfg : ApiConfig) (endpoint : String) (parameters : Option ApiSearchParameters) :
    Except String HttpCall :=
  match getEndpointConfig cfg endpoint with
  | .error e => .error e
  | .ok ec => .ok ⟨"GET", getUrl cfg ec.path, buildHttpParams parameters⟩

/-- `Api.read`. -/
def read (cfg : ApiConfig) (endpoint : String) (id : String) : Except String HttpCall :=
  match getEndpointConfig cfg endpoint with
  | .error e => .error e
  | .ok ec => .ok ⟨"GET", getUrl cfg ec.path ++ "/" ++ id, []⟩

/-- `Api.create`. -/
def create (cfg : ApiConfig) (endpoint : String) (_data : JsValue) : Except String HttpCall :=
  match getEndpointConfig cfg endpoint with
  | .error e => .error e
  | .ok ec => .ok ⟨"POST", getUrl cfg ec.path, []⟩

/-- `Api.update`. -/
def update (cfg : ApiConfig) (endpoint : String) (id : String) (_data : JsValue) :
    Except String HttpCall :=
  match getEndpointConfig cfg endpoint with
  | .error e => .error e
  | .ok ec => .ok ⟨"PATCH", getUrl cfg ec.path ++ "/" ++ id, []⟩

/-- `Api.remove`. -/
def remove (cfg : ApiConfig) (endpoint : String) (id : String) : Except String HttpCall :=
  match getEndpointConfig cfg endpoint with
  | .error e => .error e
  | .ok ec => .ok ⟨"DELETE", getUrl cfg ec.path ++ "/" ++ id, []⟩

end Api

structure ApiMetadata where
  timestamp : String
  statusCode : Nat
  message : String

structure Pagination where
  total : Nat
  page : Nat
  limit : Nat
  pages : Nat

/-- A `column`/`order` entry of `ApiSearchResponse.sort`. -/
structure SortEntry where
  column : String
  order : String

/-- The `ApiSearchResponse` class of api.response.ts (fields of the instance
produced by its constructor, including the inherited `ApiResponse` part). -/
structure ApiSearchResponse where
  data : List JsValue
  metadata : ApiMetadata
  pagination : Pagination
  groups : List JsValue
  sort : List SortEntry

/-- The options object accepted by the `ApiSearchResponse` constructor. -/
structure ApiSearchResponseOptions where
  data : List JsValue
  total : Option Nat
  page : Nat
  limit : Nat
  groups : Option (List JsValue) := none
  sort : Option (List SortEntry) := none
  statusCode : Option Nat := none
  message : Option String := none

/-- Translation of the `ApiSearchResponse` constructor (api.response.ts
lines 59-84).  `statusCode || 200` uses JS `||`; `total ?? 0` uses `??`;
`pages` is `Math.ceil(total > 0 ? total / limit : 0)` where an absent
`total` compares as not greater than 0, giving `0`; the Nat ceiling
`(t + limit - 1) / limit` equals `Math.ceil(t / limit)` for `limit > 0`
(a zero `limit`, which gives `Infinity` in JS, is outside the model). -/
def ApiSearchResponse.make (now : String) (o : ApiSearchResponseOptions) : ApiSearchResponse :=
  { data := o.data
  , metadata :=
    { timestamp := now
    , statusCode := jsOrNat o.statusCode 200
    , message := o.message.getD "" }
  , pagination :=
    { total := o.total.getD 0
    , page := o.page
    , limit := o.limit
    , pages :=
      match o.total with
      | some t => if 0 < t then (t + o.limit - 1) / o.limit else 0
      | none => 0 }
  , groups := o.groups.getD []
  , sort := o.sort.getD [] }

/-- Extraction of a numeric field (`response.total`,
`response.metadata?.statusCode`): `none` when the field is not a number. -/
def jsNatOpt (v : JsValue) : Option Nat :=
  match v with
  | .numV n => some n.toNat
  | _ => none

/-- `response.data || []`: the data array of the upstream body, or `[]`. -/
def jsArrOr (v : JsValue) : List JsValue :=
  match v with
  | .arrV xs => xs
  | _ => []

/-- `response.groups` as passed to the constructor (`undefined` when absent;
the constructor's `options.groups || []` supplies the default). -/
def jsArrOpt (v : JsValue) : Option (List JsValue) :=
  match v with
  | .arrV xs => some xs
  | _ => none

/-- `response.sort` entries, when the body carries them. -/
def jsSortOpt (v : JsValue) : Option (List SortEntry) :=
  match v with
  | .arrV xs => some (xs.map fun e =>
      { column := match e.getProp "column" with | .strV s => s | _ => ""
      , order := match e.getProp "order" with | .strV s => s | _ => "" })
  | _ => none

/-- `response.metadata?.message`. -/
def jsStrOpt (v : JsValue) : Option String :=
  match v with
  | .strV s => some s
  | _ => none

/-- Translation of the `map` stage of `Api.search` (api.response.ts lines
881-890): the upstream body is repackaged into an `ApiSearchResponse` with
`page: parameters?.page || 1` and `limit: parameters?.limit || 10`. -/
def Api.searchMapResponse (now : String) (parameters : Option ApiSearchParameters)
    (response : JsValue) : ApiSearchResponse :=
  ApiSearchResponse.make now
    { data := jsArrOr (response.getProp "data")
    , total := jsNatOpt (response.getProp "total")
    , page := jsOrNat (parameters.bind (fun p => p.page)) 1
    , limit := jsOrNat (parameters.bind (fun p => p.limit)) 10
    , groups := jsArrOpt (response.getProp "groups")
    , sort := jsSortOpt (response.getProp "sort")
    , statusCode := jsNatOpt ((response.getProp "metadata").getProp "statusCode")
    , message := jsStrOpt ((response.getProp "metadata").getProp "message") }

/-- The rxjs `retry(config)` with a constant numeric delay, as used by the
`Api` service methods (`retry(config)` with `count` and `delay: 1000`):
every error is retried, up to `count` resubscriptions.  Returns the number
of subscriptions made (= network requests issued) and the final result. -/
def rxRetryConst (count : Nat) (results : Nat → ApiInterceptor.InterceptResult) :
    Nat × ApiInterceptor.InterceptResult :=
  go count 0
where
  go : Nat → Nat → Nat × ApiInterceptor.InterceptResult
    | fuel, k =>
      match results k with
      | .ok b => (k + 1, .ok b)
      | .err e =>
        if k < count then
          match fuel with
          | 0 => (k + 1, .err e)
          | fuel' + 1 => go fuel' (k + 1)
        else (k + 1, .err e)

/-- `Api.read` including its service-level retry: each subscription `j` to
`http.get` runs the full interceptor pipeline over the transport attempts
`transport j`; the service-level `retry(config)` (`count` =
`endpointConfig.retries || this.defaultRetries`, constant 1000 ms delay)
resubscribes on any error. -/
def Api.readRun (now : String) (cfg : ApiConfig) (endpoint : String)
    (interceptorRetries : Nat) (transport : Nat → Nat → ApiInterceptor.AttemptOutcome)
    (st : Option String) : Except String (Nat × ApiInterceptor.InterceptResult) :=
  match Api.getEndpointConfig cfg endpoint with
  | .error e => .error e
  | .ok ec =>
    let count := jsOrNat ec.retries (Api.defaultRetriesOf cfg)
    .ok (rxRetryConst count
      (fun j => (ApiInterceptor.intercept now interceptorRetries (transport j) st).result))

/-! ## Concrete fixtures used by the closed theorems -/

/-- A 429 response carrying `Retry-After: 3`, with retries remaining. -/
def resp429 : HttpErrorResponse :=
  { status := 429, message := "Too Many Requests", url := some "https://api.example.com/items"
  , error := .body (.objV []), retryAfterHeader := some "3" }

/-- A plain 404 response. -/
def resp404 : HttpErrorResponse :=
  { status := 404, message := "Not Found", url := some "https://api.example.com/items/1"
  , error := .body (.objV []) }

/-- A 503 response (transient server error). -/
def resp503 : HttpErrorResponse :=
  { status := 503, message := "Service Unavailable", url := some "https://api.example.com/items"
  , error := .body (.objV []) }

/-- A network-level transport failure: no HTTP status, the `error` field is a
client-side `ErrorEvent`. -/
def respNet : HttpErrorResponse :=
  { status := 0, message := "Http failure response", url := none
  , error := .errorEvent "Connection refused" }

/-- An endpoint configuration used by the service-level fixtures. -/
def cfgItems : ApiConfig :=
  { baseUrl := "https://api.example.com"
  , endpoints := [("items", { path := "items", retries := some 2 })] }

/-- A 401 response fixture. -/
def resp401 : HttpErrorResponse :=
  { status := 401, message := "Unauthorized", url := some "https://api.example.com/items"
  , error := .body (.objV []) }

/-- An `ApiConfig` with no endpoints. -/
def cfgEmpty : ApiConfig := { baseUrl := "https://api.example.com", endpoints := [] }

/-- C1: for a failed attempt whose error is a 429 response carrying
`Retry-After: 3`, with retries remaining, the code does *not* schedule the
next attempt after min(3000, 10000) ms: the `status >= 400 && status < 500`
early return captures the 429 first, so the delay callback aborts retrying
with the converted error, the retry loop makes exactly one attempt and
schedules no delay at all — the `Retry-After` branch is unreachable. -/
theorem rateLimit_retryAfter_branch_dead :
    ApiInterceptor.retryDelay "t0" (.http resp429) 1
        = .throwErr (ApiError.fromHttpError "t0" resp429)
    ∧ (ApiError.fromHttpError "t0" resp429).status = 429
    ∧ ApiInterceptor.runRetry "t0" 2 (fun _ => .failure (.http resp429))
        = .err (.api (ApiError.fromHttpError "t0" resp429)) [] 1 :=
  ⟨rfl, rfl, rfl⟩

/-- C3: for a network-level transport failure (status 0, client-side
`ErrorEvent`), the error surfaced by the interceptor pipeline does *not*
carry status 0: the `ApiError` constructor's `options.status || 500`
coerces the explicit 0 to 500 (code stays `CLIENT_ERROR`), and consequently
the `case 0` network rewrite in `handleApiError` never fires. -/
theorem networkError_status_coerced_to_500 :
    (ApiInterceptor.intercept "t0" 2 (fun _ => .failure (.http respNet)) none).result
        = .err (ApiError.fromHttpError "t0" respNet)
    ∧ (ApiError.fromHttpError "t0" respNet).status = 500
    ∧ (ApiError.fromHttpError "t0" respNet).code = some "CLIENT_ERROR"
    ∧ (ApiError.fromHttpError "t0" respNet).status ≠ 0 :=
  ⟨rfl, rfl, rfl, by decide⟩

/-- C5: for every endpoint name absent from the configured endpoint map,
each of the five operations fails synchronously with the configuration
error thrown by `getEndpointConfig` — an `Except.error` carrying the
configuration message, produced before any `HttpCall` is built, so no
network call is issued and nothing network-shaped or retryable is
involved. -/
theorem unknownEndpoint_fails_synchronously (cfg : ApiConfig) (name id : String)
    (params : Option ApiSearchParameters) (data : JsValue)
    (h : cfg.endpoints.lookup name = none) :
    Api.search cfg name params
        = .error ("Endpoint \"" ++ name ++ "\" not found in API configuration")
    ∧ Api.read cfg name id
        = .error ("Endpoint \"" ++ name ++ "\" not found in API configuration")
    ∧ Api.create cfg name data
        = .error ("Endpoint \"" ++ name ++ "\" not found in API configuration")
    ∧ Api.update cfg name id data
        = .error ("Endpoint \"" ++ name ++ "\" not found in API configuration")
    ∧ Api.remove cfg name id
        = .error ("Endpoint \"" ++ name ++ "\" not found in API configuration") := by
  simp [Api.search, Api.read, Api.create, Api.update, Api.remove, Api.getEndpointConfig, h]

theorem unknownEndpoint_fails_synchronously_witness :
    cfgEmpty.endpoints.lookup "users" = none
    ∧ Api.search cfgEmpty "users" none
        = .error ("Endpoint \"users\" not found in API configuration")
    ∧ Api.read cfgEmpty "users" "1"
        = .error ("Endpoint \"users\" not found in API configuration")
    ∧ Api.create cfgEmpty "users" .nullV
        = .error ("Endpoint \"users\" not found in API configuration")
    ∧ Api.update cfgEmpty "users" "1" .nullV
        = .error ("Endpoint \"users\" not found in API configuration")
    ∧ Api.remove cfgEmpty "users" "1"
        = .error ("Endpoint \"users\" not found in API configuration") :=
  ⟨rfl, unknownEndpoint_fails_synchronously cfgEmpty "users" "1" none .nullV rfl⟩

/-- C8: on a 401 error, `handleApiError` invokes the credential clear
exactly once, the clear leaves the store empty (and is a no-op when the
store is already empty), and the error re-thrown to the caller is the very
same error, still carrying status 401 — the side effect never swallows it. -/
theorem unauthorized_clears_credential_once (now : String) (e : ApiError)
    (st : Option String) (h : e.status = 401) :
    ApiInterceptor.handleApiError now e st = (e, none, 1)
    ∧ (ApiInterceptor.handleApiError now e st).1.status = 401
    ∧ ApiInterceptor.handleApiError now e none = (e, none, 1) := by
  simp [ApiInterceptor.handleApiError, ApiInterceptor.handleUnauthorized, h]

theorem unauthorized_clears_credential_once_witness :
    ApiInterceptor.handleApiError "t0" (ApiError.fromHttpError "t0" resp401) (some "tok")
        = (ApiError.fromHttpError "t0" resp401, none, 1)
    ∧ (ApiInterceptor.handleApiError "t0" (ApiError.fromHttpError "t0" resp401)
        (some "tok")).1.status = 401
    ∧ ApiInterceptor.handleApiError "t0" (ApiError.fromHttpError "t0" resp401) none
        = (ApiError.fromHttpError "t0" resp401, none, 1) :=
  unauthorized_clears_credential_once "t0" (ApiError.fromHttpError "t0" resp401)
    (some "tok") rfl

/-- C2 counterexample: with `retries: 2` configured for the endpoint, a
persistent 404 leads to 3 subscriptions at the service level — the
interceptor refuses to retry the 404, but `Api.read`'s own
`retry(count, 1000)` resubscribes on any error, so retry attempts *do*
occur for a 404 when the configured retry count is positive. -/
theorem notFound_is_retried_at_service_level :
    Api.readRun "t0" cfgItems "items" 2 (fun _ _ => .failure (.http resp404)) none
        = .ok (3, .err (ApiError.fromHttpError "t0" resp404))
    ∧ (3 : Nat) ≠ 1 :=
  ⟨rfl, by decide⟩

/-- C2 (amended): within the interceptor pipeline, a failure whose
normalized error has status in [400, 500) and ≠ 429 is never retried:
exactly one transport attempt is made, no delay is scheduled, and the
pipeline fails with that normalized error. -/
theorem interceptor_no_retry_on_4xx (now : String) (retries : Nat)
    (r : HttpErrorResponse) (v : JsValue) (st : Option String)
    (attempts : Nat → ApiInterceptor.AttemptOutcome)
    (hbody : r.error = .body v)
    (h400 : 400 ≤ r.status) (h500 : r.status < 500) (h429 : r.status ≠ 429)
    (hfirst : attempts 0 = .failure (.http r)) (hret : 0 < retries) :
    (ApiInterceptor.intercept now retries attempts st).result
        = .err (ApiError.fromHttpError now r)
    ∧ (ApiInterceptor.intercept now retries attempts st).delays = []
    ∧ (ApiInterceptor.intercept now retries attempts st).tries = 1 := by
  have hst : (ApiError.fromHttpError now r).status = r.status := by
    have h0 : r.status ≠ 0 := by omega
    unfold ApiError.fromHttpError
    rw [hbody]
    simp [ApiError.make, jsOrNat, h0]
  have hrun : ApiInterceptor.runRetry now retries attempts
      = .err (.api (ApiError.fromHttpError now r)) [] 1 := by
    have hcond : 400 ≤ (ApiError.fromHttpError now r).status
        ∧ (ApiError.fromHttpError now r).status < 500 := by
      rw [hst]; exact ⟨h400, h500⟩
    rcases retries with _ | f
    · omega
    · unfold ApiInterceptor.runRetry ApiInterceptor.runRetryFrom
      simp [hfirst, ApiInterceptor.retryDelay, hcond]
  have hout : (ApiInterceptor.handleApiError now (ApiError.fromHttpError now r) st).1
      = ApiError.fromHttpError now r := by
    unfold ApiInterceptor.handleApiError
    split_ifs with h1 h2 h3
    · rfl
    · rfl
    · rw [hst] at h3; omega
    · rfl
  refine ⟨?_, ?_, ?_⟩ <;> simp [ApiInterceptor.intercept, hrun, hout]

theorem interceptor_no_retry_on_4xx_witness :
    (ApiInterceptor.intercept "t0" 2 (fun _ => .failure (.http resp404)) none).result
        = .err (ApiError.fromHttpError "t0" resp404)
    ∧ (ApiInterceptor.intercept "t0" 2 (fun _ => .failure (.http resp404)) none).delays = []
    ∧ (ApiInterceptor.intercept "t0" 2 (fun _ => .failure (.http resp404)) none).tries = 1 :=
  interceptor_no_retry_on_4xx "t0" 2 resp404 (.objV []) none
    (fun _ => .failure (.http resp404)) rfl (by decide) (by decide) (by decide) rfl
    (by decide)

/-- C4 counterexample: consecutive 503 failures with 2 retries produce the
delays 2000 and 4000 — rxjs supplies `retryCount` starting at 1, so the
first backoff delay is `min(1000 * 2^1, 10000) = 2000`, not the
`min(1000 * 2^0, 10000) = 1000` the 0-based formula predicts. -/
theorem backoff_first_delay_is_2000 :
    ApiInterceptor.runRetry "t0" 2 (fun _ => .failure (.http resp503))
        = .err (.http resp503) [2000, 4000] 3
    ∧ (2000 : Nat) ≠ min (1000 * 2 ^ 0) 10000 :=
  ⟨rfl, by decide⟩

lemma runRetryFrom_const_backoff (now : String) (count : Nat)
    (e : ApiInterceptor.RawError)
    (hdelay : ∀ i, ApiInterceptor.retryDelay now e i
        = .wait (min (1000 * 2 ^ i) 10000)) :
    ∀ fuel k acc, k + fuel = count →
      ApiInterceptor.runRetryFrom now count (fun _ => .failure e) fuel k acc
        = .err e (acc.reverse ++ (List.range fuel).map
            (fun i => min (1000 * 2 ^ (k + 1 + i)) 10000)) (count + 1) := by
  intro fuel
  induction fuel with
  | zero =>
    intro k acc hk
    unfold ApiInterceptor.runRetryFrom
    have hk' : ¬ k < count := by omega
    simp [hk']
    omega
  | succ f ih =>
    intro k acc hk
    unfold ApiInterceptor.runRetryFrom
    have hk' : k < count := by omega
    simp only [hk', if_pos, hdelay (k + 1)]
    rw [ih (k + 1) (min (1000 * 2 ^ (k + 1)) 10000 :: acc) (by omega)]
    have harith : (fun i => min (1000 * 2 ^ (k + 1 + 1 + i)) 10000)
        = (fun i => min (1000 * 2 ^ (k + 1 + (i + 1))) 10000) := by
      funext i
      rw [show k + 1 + 1 + i = k + 1 + (i + 1) from by omega]
    simp [List.range_succ_eq_map, harith, Function.comp]

/-- C4 (amended): for every retried failure handled by the exponential
backoff — a 5xx response body, a network-level failure (client-side
`ErrorEvent`, whose status the constructor coerces to 500), or an
unclassified error (rxjs timeout or any other non-HTTP error) — the delay
before the next attempt is `min(1000 * 2^retryCount, 10000)` with rxjs
`retryCount` counted from 1, i.e. a persistent such failure produces the
delay list `[2000, 4000, 8000, 10000, …]`; the delays are non-decreasing
and each is at most `MAX_RETRY_DELAY = 10000`, and the first scheduled
delay is 2000 ms. -/
theorem backoff_delays_formula (now : String) (count : Nat)
    (e : ApiInterceptor.RawError)
    (hclass :
      (∃ r v, e = .http r ∧ r.error = .body v ∧ 500 ≤ r.status)
      ∨ (∃ r msg, e = .http r ∧ r.error = .errorEvent msg)
      ∨ e = .timeoutErr
      ∨ (∃ tag, e = .other tag)) :
    ApiInterceptor.runRetry now count (fun _ => .failure e)
        = .err e ((List.range count).map
            (fun i => min (1000 * 2 ^ (i + 1)) 10000)) (count + 1)
    ∧ (∀ i j, i ≤ j →
        min (1000 * 2 ^ (i + 1)) 10000 ≤ min (1000 * 2 ^ (j + 1)) 10000)
    ∧ (∀ i, min (1000 * 2 ^ (i + 1)) 10000 ≤ 10000)
    ∧ (0 < count →
        ((List.range count).map (fun i => min (1000 * 2 ^ (i + 1)) 10000)).head?
          = some 2000) := by
  have hdelay : ∀ i, ApiInterceptor.retryDelay now e i
      = .wait (min (1000 * 2 ^ i) 10000) := by
    rcases hclass with ⟨r, v, rfl, hbody, h5xx⟩ | ⟨r, msg, rfl, herr⟩ | rfl | ⟨tag, rfl⟩
    · have hst : (ApiError.fromHttpError now r).status = r.status := by
        have h0 : r.status ≠ 0 := by omega
        unfold ApiError.fromHttpError
        rw [hbody]
        simp [ApiError.make, jsOrNat, h0]
      intro i
      have h4 : ¬ (400 ≤ (ApiError.fromHttpError now r).status
          ∧ (ApiError.fromHttpError now r).status < 500) := by
        rw [hst]; omega
      have h9 : (ApiError.fromHttpError now r).status ≠ 429 := by
        rw [hst]; omega
      unfold ApiInterceptor.retryDelay
      simp [h4, h9, ApiInterceptor.MAX_RETRY_DELAY]
    · have hst : (ApiError.fromHttpError now r).status = 500 := by
        unfold ApiError.fromHttpError
        rw [herr]
        simp [ApiError.make, jsOrNat]
      intro i
      have h4 : ¬ (400 ≤ (ApiError.fromHttpError now r).status
          ∧ (ApiError.fromHttpError now r).status < 500) := by
        rw [hst]; omega
      have h9 : (ApiError.fromHttpError now r).status ≠ 429 := by
        rw [hst]; omega
      unfold ApiInterceptor.retryDelay
      simp [h4, h9, ApiInterceptor.MAX_RETRY_DELAY]
    · intro i
      rfl
    · intro i
      rfl
  refine ⟨?_, ?_, ?_, ?_⟩
  · have h := runRetryFrom_const_backoff now count e hdelay count 0 []
      (by omega)
    unfold ApiInterceptor.runRetry
    rw [h]
    have harith : (fun i => min (1000 * 2 ^ (0 + 1 + i)) 10000)
        = (fun i => min (1000 * 2 ^ (i + 1)) 10000) := by
      funext i
      rw [show 0 + 1 + i = i + 1 from by omega]
    simp [harith]
  · intro i j hij
    exact min_le_min (Nat.mul_le_mul_left 1000
      (Nat.pow_le_pow_right (by omega) (by omega))) le_rfl
  · intro i
    exact min_le_right _ _
  · intro hc
    rcases count with _ | c
    · omega
    · simp [List.range_succ_eq_map]

theorem backoff_delays_formula_witness :
    (ApiInterceptor.runRetry "t0" 3 (fun _ => .failure (.http resp503))
        = .err (.http resp503) ((List.range 3).map
            (fun i => min (1000 * 2 ^ (i + 1)) 10000)) (3 + 1)
      ∧ (∀ i j, i ≤ j →
          min (1000 * 2 ^ (i + 1)) 10000 ≤ min (1000 * 2 ^ (j + 1)) 10000)
      ∧ (∀ i, min (1000 * 2 ^ (i + 1)) 10000 ≤ 10000)
      ∧ (0 < 3 →
          ((List.range 3).map (fun i => min (1000 * 2 ^ (i + 1)) 10000)).head?
            = some 2000))
    ∧ (ApiInterceptor.runRetry "t0" 2 (fun _ => .failure (.http respNet))
        = .err (.http respNet) ((List.range 2).map
            (fun i => min (1000 * 2 ^ (i + 1)) 10000)) (2 + 1)
      ∧ (∀ i j, i ≤ j →
          min (1000 * 2 ^ (i + 1)) 10000 ≤ min (1000 * 2 ^ (j + 1)) 10000)
      ∧ (∀ i, min (1000 * 2 ^ (i + 1)) 10000 ≤ 10000)
      ∧ (0 < 2 →
          ((List.range 2).map (fun i => min (1000 * 2 ^ (i + 1)) 10000)).head?
            = some 2000))
    ∧ ApiInterceptor.runRetry "t0" 2 (fun _ => .failure .timeoutErr)
        = .err .timeoutErr ((List.range 2).map
            (fun i => min (1000 * 2 ^ (i + 1)) 10000)) (2 + 1) :=
  ⟨backoff_delays_formula "t0" 3 (.http resp503)
      (Or.inl ⟨resp503, .objV [], rfl, rfl, by decide⟩),
    backoff_delays_formula "t0" 2 (.http respNet)
      (Or.inr (Or.inl ⟨respNet, "Connection refused", rfl, rfl⟩)),
    (backoff_delays_formula "t0" 2 .timeoutErr
      (Or.inr (Or.inr (Or.inl rfl)))).1⟩

/-- Modelled from the spec's words (§4.2), for comparison with the source's
`Api.buildHttpParams`: the optional entries in the spec's order — `search`
as-is when truthy-present, `filter` JSON-serialized when present, `sort`
JSON-serialized when present and non-empty, `groupby` as-is when
truthy-present — to which the builder appends `page` and `limit` as the
final two entries. -/
def specOptionalEntries (p : ApiSearchParameters) : List (String × String) :=
  (match p.search with
   | some s => if s ≠ "" then [("search", s)] else []
   | none => [])
  ++ (match p.filter with
   | some f => [("filter", jsonStringify (.objV f))]
   | none => [])
  ++ (match p.sort with
   | some s => if s.length ≠ 0 then [("sort", jsonStringify (sortToJsValue s))] else []
   | none => [])
  ++ (match p.groupby with
   | some g => if g ≠ "" then [("groupby", g)] else []
   | none => [])

set_option maxHeartbeats 1000000 in
lemma buildHttpParams_some_eq (p : ApiSearchParameters) :
    Api.buildHttpParams (some p)
      = specOptionalEntries p
          ++ [("page", toString (p.page.getD 1)), ("limit", toString (p.limit.getD 100))] := by
  rcases p with ⟨pg, lim, se, fi, so, gr⟩
  rcases se with _ | s <;> rcases fi with _ | f <;> rcases so with _ | so <;>
    rcases gr with _ | g <;>
    simp only [Api.buildHttpParams, specOptionalEntries] <;>
    first
      | (split_ifs <;> rfl)
      | rfl

/-- C6 counterexample: for the absent/undefined input the builder returns
an *empty* query — the `if (!parameters) return params` early return means
the page/limit defaults are not applied, contradicting "including the
absent/undefined input, … includes the resolved page and limit as its final
two entries". -/
theorem buildHttpParams_absent_input_empty :
    Api.buildHttpParams none = []
    ∧ (Api.buildHttpParams none).lookup "page" = none
    ∧ (Api.buildHttpParams none).lookup "limit" = none :=
  ⟨rfl, rfl, rfl⟩

/-- C6 (amended): for every *present* parameters object, the built query is
the optional entries (search/filter/sort/groupby, included only when
present — filter and non-empty sort JSON-serialized — and omitted entirely
when absent) followed by the resolved `page` (default 1) and `limit`
(default 100) as the final two entries; for the absent input the built
query is empty. -/
theorem buildHttpParams_layout (p : ApiSearchParameters) :
    Api.buildHttpParams (some p)
        = specOptionalEntries p
            ++ [("page", toString (p.page.getD 1)), ("limit", toString (p.limit.getD 100))]
    ∧ Api.buildHttpParams none = []
    ∧ (p.search = none → p.filter = none → p.sort = none → p.groupby = none →
        specOptionalEntries p = []) := by
  refine ⟨buildHttpParams_some_eq p, rfl, ?_⟩
  intro h1 h2 h3 h4
  simp [specOptionalEntries, h1, h2, h3, h4]

theorem buildHttpParams_layout_witness :
    Api.buildHttpParams (some ({} : ApiSearchParameters))
        = specOptionalEntries {} ++ [("page", "1"), ("limit", "100")]
    ∧ Api.buildHttpParams none = []
    ∧ specOptionalEntries ({} : ApiSearchParameters) = [] :=
  ⟨(buildHttpParams_layout {}).1, rfl, (buildHttpParams_layout {}).2.2 rfl rfl rfl rfl⟩

lemma handleResponse_pass (now : String) (body : JsValue)
    (h : (body.truthy && (body.getProp "metadata").truthy) = true) :
    ApiInterceptor.handleResponse now body = some body := by
  unfold ApiInterceptor.handleResponse
  rw [if_pos h]

/-- C9: success normalization is idempotent — a body already carrying
(truthy) envelope `metadata` is passed through unchanged, and re-applying
`handleResponse` to any normalized result returns it unchanged, for every
response body (including the nullish bodies on which wrapping throws:
there both sides fail identically). -/
theorem handleResponse_idempotent (now now2 : String) (body : JsValue) :
    (ApiInterceptor.handleResponse now body).bind (ApiInterceptor.handleResponse now2)
        = ApiInterceptor.handleResponse now body
    ∧ ((body.truthy && (body.getProp "metadata").truthy) = true →
        ApiInterceptor.handleResponse now body = some body) := by
  refine ⟨?_, handleResponse_pass now body⟩
  by_cases h : (body.truthy && (body.getProp "metadata").truthy) = true
  · rw [handleResponse_pass now body h]
    exact handleResponse_pass now2 body h
  · have hb : ApiInterceptor.handleResponse now body
        = ApiInterceptor.newApiResponse now body := by
      unfold ApiInterceptor.handleResponse
      rw [if_neg h]
    rw [hb]
    by_cases hn : body.isNullish = true
    · unfold ApiInterceptor.newApiResponse
      rw [if_pos hn]
      rfl
    · unfold ApiInterceptor.newApiResponse
      rw [if_neg hn]
      exact handleResponse_pass now2 _ rfl

theorem handleResponse_idempotent_witness :
    ApiInterceptor.handleResponse "t1" (.objV [("metadata", .objV [])])
        = some (.objV [("metadata", .objV [])])
    ∧ (ApiInterceptor.handleResponse "t1" (.objV [("metadata", .objV [])])).bind
        (ApiInterceptor.handleResponse "t2")
        = ApiInterceptor.handleResponse "t1" (.objV [("metadata", .objV [])]) :=
  ⟨(handleResponse_idempotent "t1" "t2" (.objV [("metadata", .objV [])])).2 rfl,
   (handleResponse_idempotent "t1" "t2" (.objV [("metadata", .objV [])])).1⟩

/-- C7: the search envelope's `pagination.pages` is the ceiling of
`total / limit` when `total > 0` (witnessed by the bracketing
`total ≤ limit * pages < total + limit`) and `0` when `total = 0`;
concretely `total=0, limit=10` gives 0 and `total=23, limit=10` gives 3;
and a search with `page=1, limit=2` over an upstream body
`(data:[(id:1),(id:2)], total:5)` yields
`pagination = (total:5, page:1, limit:2, pages:3)`. -/
theorem searchResponse_pages_ceiling (total limit : Nat)
    (htotal : 0 < total) (hlimit : 0 < limit) :
    (∀ now page data,
      (ApiSearchResponse.make now
        { data := data, total := some total, page := page, limit := limit }).pagination.pages
          = (total + limit - 1) / limit
      ∧ total ≤ limit * ((total + limit - 1) / limit)
      ∧ limit * ((total + limit - 1) / limit) < total + limit)
    ∧ (∀ now page data, (ApiSearchResponse.make now
        { data := data, total := some 0, page := page, limit := limit }).pagination.pages = 0)
    ∧ (ApiSearchResponse.make "T"
        { data := [], total := some 0, page := 1, limit := 10 }).pagination.pages = 0
    ∧ (ApiSearchResponse.make "T"
        { data := [], total := some 23, page := 1, limit := 10 }).pagination.pages = 3
    ∧ (Api.searchMapResponse "T" (some { page := some 1, limit := some 2 })
        (.objV [ ("data", .arrV [.objV [("id", .numV 1)], .objV [("id", .numV 2)]])
               , ("total", .numV 5) ])).pagination
        = { total := 5, page := 1, limit := 2, pages := 3 } := by
  refine ⟨?_, ?_, rfl, rfl, rfl⟩
  · intro now page data
    refine ⟨by simp [ApiSearchResponse.make, htotal], ?_, ?_⟩
    · have hdm := Nat.div_add_mod (total + limit - 1) limit
      have hr : (total + limit - 1) % limit < limit := Nat.mod_lt _ hlimit
      omega
    · have hdm := Nat.div_add_mod (total + limit - 1) limit
      have hr : (total + limit - 1) % limit < limit := Nat.mod_lt _ hlimit
      omega
  · intro now page data
    simp [ApiSearchResponse.make]

theorem searchResponse_pages_ceiling_witness :
    (∀ now page data,
      (ApiSearchResponse.make now
        { data := data, total := some 23, page := page, limit := 10 }).pagination.pages
          = (23 + 10 - 1) / 10
      ∧ 23 ≤ 10 * ((23 + 10 - 1) / 10)
      ∧ 10 * ((23 + 10 - 1) / 10) < 23 + 10)
    ∧ (∀ now page data, (ApiSearchResponse.make now
        { data := data, total := some 0, page := page, limit := 10 }).pagination.pages = 0)
    ∧ (ApiSearchResponse.make "T"
        { data := [], total := some 0, page := 1, limit := 10 }).pagination.pages = 0
    ∧ (ApiSearchResponse.make "T"
        { data := [], total := some 23, page := 1, limit := 10 }).pagination.pages = 3
    ∧ (Api.searchMapResponse "T" (some { page := some 1, limit := some 2 })
        (.objV [ ("data", .arrV [.objV [("id", .numV 1)], .objV [("id", .numV 2)]])
               , ("total", .numV 5) ])).pagination
        = { total := 5, page := 1, limit := 2, pages := 3 } :=
  searchResponse_pages_ceiling 23 10 (by decide) (by decide)

/-- C10: when `limit` is omitted from the search parameters the outgoing
query carries `limit=100` (the builder's destructuring default) while the
returned envelope records `pagination.limit = 10` (the `parameters?.limit
|| 10` default of the search mapping) — the two defaults disagree — whereas
an omitted `page` resolves to 1 in both the query and the envelope. -/
theorem search_default_limit_mismatch (p : ApiSearchParameters)
    (hlim : p.limit = none) (hpage : p.page = none) (body : JsValue) (now : String) :
    Api.buildHttpParams (some p)
        = specOptionalEntries p ++ [("page", "1"), ("limit", "100")]
    ∧ (Api.searchMapResponse now (some p) body).pagination.limit = 10
    ∧ (Api.searchMapResponse now (some p) body).pagination.page = 1
    ∧ (100 : Nat) ≠ 10 := by
  refine ⟨?_, ?_, ?_, by decide⟩
  · have h := buildHttpParams_some_eq p
    rw [hlim, hpage] at h
    exact h
  · simp [Api.searchMapResponse, ApiSearchResponse.make, hlim, jsOrNat]
  · simp [Api.searchMapResponse, ApiSearchResponse.make, hpage, jsOrNat]

theorem search_default_limit_mismatch_witness :
    Api.buildHttpParams (some ({} : ApiSearchParameters))
        = specOptionalEntries {} ++ [("page", "1"), ("limit", "100")]
    ∧ (Api.searchMapResponse "T" (some ({} : ApiSearchParameters)) .nullV).pagination.limit = 10
    ∧ (Api.searchMapResponse "T" (some ({} : ApiSearchParameters)) .nullV).pagination.page = 1
    ∧ (100 : Nat) ≠ 10 :=
  search_default_limit_mismatch {} rfl rfl .nullV "T"
